import Mathlib

/-!
Verification of the MTZ header decoder (`src/mtz/mtz.py` together with the
stream wrapper `src/mtz/io.py`).

The Python source is shallowly embedded: the byte stream is a `List Nat`
(one entry per byte), 80-byte textual records are decoded to `String`s and
parsed by `parse_record` (the embedding of `_parse_record`), and the failure
modes of the Python code are made explicit with `Except PyError`.  The
`PyError` constructors model the distinct Python exception classes raised by
the source: `assertionError` for `assert` statements, `valueError` for
`ValueError` (including the `get_only` / `get_only_or` cardinality failures
and `int()` / `float()` conversion failures; `UnicodeDecodeError` is a
`ValueError` subclass in Python), `ioError` for plain `IOError`,
`mtzFileError` for `MTZFileError` (which in the source subclasses `IOError`),
`inconsistentHeaderError` for `InconsistentHeaderError` (which subclasses
`MTZFileError`), and `structError` for `struct.error` on a short binary read.
`fuelExhausted` is an artifact of the bounded-loop embedding of the source's
`while True:` loops and of statically-unreachable `match` arms; the fuel
given to each loop is one more than the number of remaining stream bytes and
every loop iteration either consumes at least one byte or fails, so
`fuelExhausted` is never produced on any input.

Python `float` fields (unit cells, resolution limits, column ranges,
wavelengths) are only ever stored by the decoder, never computed with, so
their parsed values are represented exactly as signed decimal pairs
(`PyFloat`, the value `mant * 10 ^ exp10`), kept as parsed; the decoder
never compares or computes with float payloads, so no claim depends on
identifying different spellings of the same value.  The binary float32
payload of a batch is represented by its little-endian 32-bit pattern (a
`Nat`).  Error message strings follow the source where the source
gives a fixed message, and are abbreviated where the source interpolates
runtime data into the message.
-/

/-- The Python exception classes that the decoder can raise, as a closed
inductive.  See the module comment for the correspondence. -/
inductive PyError where
  | assertionError : PyError
  | valueError : String → PyError
  | ioError : String → PyError
  | mtzFileError : String → PyError
  | inconsistentHeaderError : String → PyError
  | structError : PyError
  | fuelExhausted : PyError
deriving DecidableEq, Repr

/-- The characters Python's `str.strip()` / `str.split()` treat as
whitespace, restricted to ASCII (record text is ASCII-decoded first). -/
def isPySpace (c : Char) : Bool :=
  c.toNat = 32 || c.toNat = 9 || c.toNat = 10 || c.toNat = 11 ||
  c.toNat = 12 || c.toNat = 13

/-- Python `str.strip()` on a character list. -/
def pyStrip (l : List Char) : List Char :=
  ((l.dropWhile isPySpace).reverse.dropWhile isPySpace).reverse

/-- Python `str.strip()`. -/
def pyStripStr (s : String) : String :=
  ⟨pyStrip s.data⟩

/-- Helper for `pySplitWs`: accumulates the current token (reversed). -/
def pySplitWsAux : List Char → List Char → List String
  | [], [] => []
  | [], cur => [⟨cur.reverse⟩]
  | c :: cs, cur =>
    if isPySpace c then
      match cur with
      | [] => pySplitWsAux cs []
      | _ => (⟨cur.reverse⟩ : String) :: pySplitWsAux cs []
    else pySplitWsAux cs (c :: cur)

/-- Python `str.split()` with no argument: split on runs of whitespace,
discarding empty pieces. -/
def pySplitWs (s : String) : List String :=
  pySplitWsAux s.data []

/-- Value of a decimal digit character. -/
def digitVal (c : Char) : Nat := c.toNat - 48

/-- Is `c` a decimal digit? -/
def isDigitC (c : Char) : Bool := 48 ≤ c.toNat && c.toNat ≤ 57

/-- Accumulate a digit list into a natural number. -/
def digitsToNat (l : List Char) : Nat :=
  l.foldl (fun a c => a * 10 + digitVal c) 0

/-- Split an optional leading sign off a character list, returning the sign
as an integer factor. -/
def splitSign : List Char → Int × List Char
  | [] => (1, [])
  | c :: cs =>
    if c = '-' then (-1, cs)
    else if c = '+' then (1, cs)
    else (1, c :: cs)

/-- Python `int(s)`: surrounding whitespace is stripped, an optional sign is
followed by one or more decimal digits; anything else raises `ValueError`.
(Underscore digit separators, accepted by recent Pythons, are not modelled;
no record in scope uses them.) -/
def pyInt (s : String) : Except PyError Int :=
  let l := pyStrip s.data
  let (sg, ds) := splitSign l
  if !ds.isEmpty && ds.all isDigitC then .ok (sg * (digitsToNat ds : Int))
  else .error (.valueError "invalid literal for int")

/-- Value of a hexadecimal digit character, or `none`. -/
def hexDigitVal (c : Char) : Option Nat :=
  if 48 ≤ c.toNat && c.toNat ≤ 57 then some (c.toNat - 48)
  else if 97 ≤ c.toNat && c.toNat ≤ 102 then some (c.toNat - 87)
  else if 65 ≤ c.toNat && c.toNat ≤ 70 then some (c.toNat - 55)
  else none

/-- Accumulate hex digits into a natural number (`none` if any character is
not a hex digit). -/
def hexDigitsToNat (l : List Char) : Option Nat :=
  l.foldl (fun a c => do (← a) * 16 + (← hexDigitVal c)) (some 0)

/-- Python `int(s, 16)`: strip, optional sign, optional `0x`/`0X` prefix,
one or more hex digits. -/
def pyIntHex (s : String) : Except PyError Int :=
  let l := pyStrip s.data
  let (sg, ds0) := splitSign l
  let ds :=
    match ds0 with
    | '0' :: x :: rest => if x = 'x' || x = 'X' then rest else ds0
    | _ => ds0
  if ds.isEmpty then .error (.valueError "invalid literal for int with base 16")
  else
    match hexDigitsToNat ds with
    | some n => .ok (sg * (n : Int))
    | none => .error (.valueError "invalid literal for int with base 16")

/-- Split a character list at the first `e`/`E` (for float exponents). -/
def splitAtExpChar : List Char → List Char × Option (List Char)
  | [] => ([], none)
  | c :: cs =>
    if c = 'e' || c = 'E' then ([], some cs)
    else
      let (pre, post) := splitAtExpChar cs
      (c :: pre, post)

/-- Split a character list at the first `.` (for float mantissas). -/
def splitAtDotChar : List Char → List Char × Option (List Char)
  | [] => ([], none)
  | c :: cs =>
    if c = '.' then ([], some cs)
    else
      let (pre, post) := splitAtDotChar cs
      (c :: pre, post)

/-- An exact signed decimal value `mant * 10 ^ exp10`, the representation
of a parsed Python float.  The decoder only stores float fields, it never
compares or computes with them, so rounding to binary64 is immaterial and
the as-parsed exact decimal faithfully represents the value. -/
structure PyFloat where
  mant : Int
  exp10 : Int
deriving DecidableEq, Repr

/-- Python `float(s)` for ordinary decimal/scientific numerals, with the
value represented exactly (see `PyFloat`).  `inf`/`nan` spellings and
underscore separators are modelled as errors; no record in scope uses
them. -/
def pyFloat (s : String) : Except PyError PyFloat :=
  let l := pyStrip s.data
  let (sg, l1) := splitSign l
  let (mant, expPart) := splitAtExpChar l1
  let (ip, fpOpt) := splitAtDotChar mant
  let fp := fpOpt.getD []
  if !(ip ++ fp).isEmpty && ip.all isDigitC && fp.all isDigitC then
    match expPart with
    | none =>
        .ok ⟨sg * (digitsToNat (ip ++ fp) : Int), -(fp.length : Int)⟩
    | some el =>
        let (esg, eds) := splitSign el
        if !eds.isEmpty && eds.all isDigitC then
          .ok ⟨sg * (digitsToNat (ip ++ fp) : Int),
               esg * (digitsToNat eds : Int) - (fp.length : Int)⟩
        else .error (.valueError "could not convert string to float")
  else .error (.valueError "could not convert string to float")

/-- The single-quote character. -/
def sqChar : Char := Char.ofNat 39

/-- The double-quote character. -/
def dqChar : Char := Char.ofNat 34

/-- The backslash character. -/
def bsChar : Char := Char.ofNat 92

/-- Lexer states for the embedding of `shlex.split` (POSIX mode): outside a
token, inside a token, after a bare backslash, inside single quotes, inside
double quotes, after a backslash inside double quotes. -/
inductive ShMode where
  | out | tok | esc | sq | dq | dqesc
deriving DecidableEq, Repr

/-- One-character-at-a-time embedding of Python's `shlex.split` in POSIX
mode with whitespace splitting: quotes group, `\x5c` escapes the next
character (inside double quotes only before `\x22` and `\x5c`), an unclosed
quote raises `ValueError`.  A trailing bare backslash is dropped.  The
current token and the token list are accumulated in reverse. -/
def shlexGo : List Char → ShMode → List Char → List (List Char) →
    Except PyError (List (List Char))
  | [], .out, _, toks => .ok toks.reverse
  | [], .tok, cur, toks => .ok (cur.reverse :: toks).reverse
  | [], .esc, cur, toks => .ok (cur.reverse :: toks).reverse
  | [], .sq, _, _ => .error (.valueError "No closing quotation")
  | [], .dq, _, _ => .error (.valueError "No closing quotation")
  | [], .dqesc, _, _ => .error (.valueError "No closing quotation")
  | c :: cs, .out, _, toks =>
    if isPySpace c then shlexGo cs .out [] toks
    else if c = sqChar then shlexGo cs .sq [] toks
    else if c = dqChar then shlexGo cs .dq [] toks
    else if c = bsChar then shlexGo cs .esc [] toks
    else shlexGo cs .tok [c] toks
  | c :: cs, .tok, cur, toks =>
    if isPySpace c then shlexGo cs .out [] (cur.reverse :: toks)
    else if c = sqChar then shlexGo cs .sq cur toks
    else if c = dqChar then shlexGo cs .dq cur toks
    else if c = bsChar then shlexGo cs .esc cur toks
    else shlexGo cs .tok (c :: cur) toks
  | c :: cs, .esc, cur, toks => shlexGo cs .tok (c :: cur) toks
  | c :: cs, .sq, cur, toks =>
    if c = sqChar then shlexGo cs .tok cur toks
    else shlexGo cs .sq (c :: cur) toks
  | c :: cs, .dq, cur, toks =>
    if c = dqChar then shlexGo cs .tok cur toks
    else if c = bsChar then shlexGo cs .dqesc cur toks
    else shlexGo cs .dq (c :: cur) toks
  | c :: cs, .dqesc, cur, toks =>
    if c = dqChar || c = bsChar then shlexGo cs .dq (c :: cur) toks
    else shlexGo cs .dq (c :: bsChar :: cur) toks

/-- `shlex.split(s)`. -/
def shlexSplit (s : String) : Except PyError (List String) :=
  (shlexGo s.data .out [] []).map (·.map fun l => (⟨l⟩ : String))

/-- `split_length` from the source: cut consecutive fixed-width fields out
of a string, stripping each. -/
def split_length (l : List Char) : List Nat → List String
  | [] => []
  | n :: ns => (⟨pyStrip (l.take n)⟩ : String) :: split_length (l.drop n) ns

/-- `get_only` from the source: the first and only element of a list,
`ValueError` otherwise. -/
def get_only {α : Type} : List α → Except PyError α
  | [] => .error (.valueError "No items in generator to extract")
  | [x] => .ok x
  | _ => .error (.valueError "More than one item in generator")

/-- `get_only_or` from the source: the only element, `none` when the list
is empty, `ValueError` when there is more than one element. -/
def get_only_or {α : Type} : List α → Except PyError (Option α)
  | [] => .ok none
  | [x] => .ok (some x)
  | _ => .error (.valueError "More than one item in generator")

/-- The `DataType` enumeration from the source (17 single-letter column
type codes). -/
inductive DataType where
  | Index | Intensity | StructureAmplitude | AnomalousDifference
  | StandardDeviation | MemberStructureAmplitude | MSAStandardDeviation
  | IndexMemberIntensity | IMIStandardDeviation | Epsilon | PhaseAngle
  | Weight | PhaseProbabilityCoefficient | BatchNumber | MISYM
  | Integer | Real
deriving DecidableEq, Repr

/-- `DataType(s)`: look a string up among the enumeration values;
`ValueError` when it is not one of the 17 codes. -/
def DataType.ofString (s : String) : Except PyError DataType :=
  if s = "H" then .ok .Index
  else if s = "J" then .ok .Intensity
  else if s = "F" then .ok .StructureAmplitude
  else if s = "D" then .ok .AnomalousDifference
  else if s = "Q" then .ok .StandardDeviation
  else if s = "G" then .ok .MemberStructureAmplitude
  else if s = "L" then .ok .MSAStandardDeviation
  else if s = "K" then .ok .IndexMemberIntensity
  else if s = "M" then .ok .IMIStandardDeviation
  else if s = "E" then .ok .Epsilon
  else if s = "P" then .ok .PhaseAngle
  else if s = "W" then .ok .Weight
  else if s = "A" then .ok .PhaseProbabilityCoefficient
  else if s = "B" then .ok .BatchNumber
  else if s = "Y" then .ok .MISYM
  else if s = "I" then .ok .Integer
  else if s = "R" then .ok .Real
  else .error (.valueError "is not a valid DataType")

/-- The typed header records produced by `_parse_record`, one constructor
per keyword of the source's dispatch chain.  `COL` carries a flag recording
whether the long spelling `COLUMN` was used (the source keeps the keyword
string; both spellings are treated identically everywhere). -/
inductive HeaderRecord where
  | VERS : String → HeaderRecord
  | TITLE : String → HeaderRecord
  | NCOL : Int → Int → Int → HeaderRecord
  | CELL : List PyFloat → HeaderRecord
  | SORT : List Int → HeaderRecord
  | SYMINF : Int → Int → String → Int → String → String → Option String → HeaderRecord
  | SYMM : String → HeaderRecord
  | RESO : PyFloat → PyFloat → HeaderRecord
  | VALM : String → HeaderRecord
  | COL : Bool → String → String → PyFloat → PyFloat → Int → HeaderRecord
  | NDIF : Int → HeaderRecord
  | PROJECT : Int → String → HeaderRecord
  | CRYSTAL : Int → String → HeaderRecord
  | DATASET : Int → String → HeaderRecord
  | DCELL : Int → List PyFloat → HeaderRecord
  | DWAVEL : Int → PyFloat → HeaderRecord
  | BATCH : List Int → HeaderRecord
  | COLSRC : String → String → Int → HeaderRecord
  | COLGRP : String → String → String → Int → Int → HeaderRecord
  | END : HeaderRecord
  | MTZHIST : Int → HeaderRecord
  | MTZENDOFHEADERS : HeaderRecord
  | MTZBATS : HeaderRecord
  | BH : Int → Int → Int → Int → HeaderRecord
  | BHCH : List String → HeaderRecord
deriving DecidableEq, Repr

/-- The keyword string of a record, exactly as the source stores it in the
`HeaderRecord` namedtuple. -/
def HeaderRecord.keyword : HeaderRecord → String
  | .VERS _ => "VERS"
  | .TITLE _ => "TITLE"
  | .NCOL _ _ _ => "NCOL"
  | .CELL _ => "CELL"
  | .SORT _ => "SORT"
  | .SYMINF _ _ _ _ _ _ _ => "SYMINF"
  | .SYMM _ => "SYMM"
  | .RESO _ _ => "RESO"
  | .VALM _ => "VALM"
  | .COL long _ _ _ _ _ => if long then "COLUMN" else "COL"
  | .NDIF _ => "NDIF"
  | .PROJECT _ _ => "PROJECT"
  | .CRYSTAL _ _ => "CRYSTAL"
  | .DATASET _ _ => "DATASET"
  | .DCELL _ _ => "DCELL"
  | .DWAVEL _ _ => "DWAVEL"
  | .BATCH _ => "BATCH"
  | .COLSRC _ _ _ => "COLSRC"
  | .COLGRP _ _ _ _ _ => "COLGRP"
  | .END => "END"
  | .MTZHIST _ => "MTZHIST"
  | .MTZENDOFHEADERS => "MTZENDOFHEADERS"
  | .MTZBATS => "MTZBATS"
  | .BH _ _ _ _ => "BH"
  | .BHCH _ => "BHCH"

/-- Python's `raw_data[:raw_data.find(" ")]` split, as a structural
recursion: when a space exists, the part before the first space and the
part after it; `none` when there is no space (in which case the source
takes `raw_data[:-1]` as the keyword and the empty string as the data). -/
def splitKeywordAux : List Char → Option (List Char × List Char)
  | [] => none
  | c :: cs =>
    if c = ' ' then some ([], cs)
    else (splitKeywordAux cs).map (fun p => (c :: p.1, p.2))

/-- Split a raw record into the keyword and the data payload, exactly as
`_parse_record` does with `find`/slicing. -/
def splitKeyword (raw : String) : String × String :=
  match splitKeywordAux raw.data with
  | some (k, d) => (⟨k⟩, ⟨d⟩)
  | none => (⟨raw.data.dropLast⟩, "")

/-- Convert every token with `pyInt`, left to right. -/
def mapPyInt : List String → Except PyError (List Int)
  | [] => .ok []
  | s :: ss =>
    match pyInt s with
    | .error e => .error e
    | .ok n =>
      match mapPyInt ss with
      | .error e => .error e
      | .ok ns => .ok (n :: ns)

/-- Convert every token with `pyFloat`, left to right. -/
def mapPyFloat : List String → Except PyError (List PyFloat)
  | [] => .ok []
  | s :: ss =>
    match pyFloat s with
    | .error e => .error e
    | .ok n =>
      match mapPyFloat ss with
      | .error e => .error e
      | .ok ns => .ok (n :: ns)

/-- The keyword dispatch chain of `_parse_record`, applied to an already
split keyword and data payload.  Each branch reproduces the source's
parsing rule for that keyword; `_map_types` is inlined at each call site
(shell-style tokenisation with `shlexSplit`, an arity `assert`, then
left-to-right conversion). -/
def recordDispatch (kw data : String) : Except PyError HeaderRecord :=
  if kw = "VERS" then .ok (.VERS (pyStripStr data))
  else if kw = "TITLE" then .ok (.TITLE (pyStripStr data))
  else if kw = "NCOL" then
    match mapPyInt (pySplitWs data) with
    | .error e => .error e
    | .ok l =>
      match l with
      | [a, b, c] => .ok (.NCOL a b c)
      | _ => .error .assertionError
  else if kw = "CELL" then
    match mapPyFloat (pySplitWs data) with
    | .error e => .error e
    | .ok l => if l.length = 6 then .ok (.CELL l) else .error .assertionError
  else if kw = "SORT" then
    match mapPyInt (pySplitWs data) with
    | .error e => .error e
    | .ok l => if l.length = 5 then .ok (.SORT l) else .error .assertionError
  else if kw = "SYMINF" then
    match shlexSplit data with
    | .error e => .error e
    | .ok parts =>
      if parts.length = 7 then
        match parts with
        | [p1, p2, p3, p4, p5, p6, p7] =>
          match pyInt p1 with
          | .error e => .error e
          | .ok i1 =>
            match pyInt p2 with
            | .error e => .error e
            | .ok i2 =>
              match pyInt p4 with
              | .error e => .error e
              | .ok i4 => .ok (.SYMINF i1 i2 p3 i4 p5 p6 (some p7))
        | _ => .error .assertionError
      else
        match parts with
        | [p1, p2, p3, p4, p5, p6] =>
          match pyInt p1 with
          | .error e => .error e
          | .ok i1 =>
            match pyInt p2 with
            | .error e => .error e
            | .ok i2 =>
              match pyInt p4 with
              | .error e => .error e
              | .ok i4 => .ok (.SYMINF i1 i2 p3 i4 p5 p6 none)
        | _ => .error .assertionError
  else if kw = "SYMM" then .ok (.SYMM (pyStripStr data))
  else if kw = "RESO" then
    match mapPyFloat (pySplitWs data) with
    | .error e => .error e
    | .ok l =>
      match l with
      | [a, b] => .ok (.RESO a b)
      | _ => .error .assertionError
  else if kw = "VALM" then .ok (.VALM (pyStripStr data))
  else if kw = "COL" || kw = "COLUMN" then
    match shlexSplit data with
    | .error e => .error e
    | .ok parts =>
      match parts with
      | [p1, p2, p3, p4, p5] =>
        match pyFloat p3 with
        | .error e => .error e
        | .ok f3 =>
          match pyFloat p4 with
          | .error e => .error e
          | .ok f4 =>
            match pyInt p5 with
            | .error e => .error e
            | .ok i5 => .ok (.COL (kw = "COLUMN") p1 p2 f3 f4 i5)
      | _ => .error .assertionError
  else if kw = "NDIF" then
    match pyInt data with
    | .error e => .error e
    | .ok n => .ok (.NDIF n)
  else if kw = "PROJECT" then
    match shlexSplit data with
    | .error e => .error e
    | .ok parts =>
      match parts with
      | [p1, p2] =>
        match pyInt p1 with
        | .error e => .error e
        | .ok i1 => .ok (.PROJECT i1 p2)
      | _ => .error .assertionError
  else if kw = "CRYSTAL" then
    match shlexSplit data with
    | .error e => .error e
    | .ok parts =>
      match parts with
      | [p1, p2] =>
        match pyInt p1 with
        | .error e => .error e
        | .ok i1 => .ok (.CRYSTAL i1 p2)
      | _ => .error .assertionError
  else if kw = "DATASET" then
    match shlexSplit data with
    | .error e => .error e
    | .ok parts =>
      match parts with
      | [p1, p2] =>
        match pyInt p1 with
        | .error e => .error e
        | .ok i1 => .ok (.DATASET i1 p2)
      | _ => .error .assertionError
  else if kw = "DCELL" then
    match shlexSplit data with
    | .error e => .error e
    | .ok parts =>
      match parts with
      | [p1, p2, p3, p4, p5, p6, p7] =>
        match pyInt p1 with
        | .error e => .error e
        | .ok i1 =>
          match mapPyFloat [p2, p3, p4, p5, p6, p7] with
          | .error e => .error e
          | .ok fs => .ok (.DCELL i1 fs)
      | _ => .error .assertionError
  else if kw = "DWAVEL" then
    match shlexSplit data with
    | .error e => .error e
    | .ok parts =>
      match parts with
      | [p1, p2] =>
        match pyInt p1 with
        | .error e => .error e
        | .ok i1 =>
          match pyFloat p2 with
          | .error e => .error e
          | .ok f2 => .ok (.DWAVEL i1 f2)
      | _ => .error .assertionError
  else if kw = "BATCH" then
    match mapPyInt (pySplitWs data) with
    | .error e => .error e
    | .ok l => .ok (.BATCH l)
  else if kw = "COLSRC" then
    match pyInt ⟨data.data.drop 66⟩ with
    | .error e => .error e
    | .ok n =>
      .ok (.COLSRC ⟨pyStrip (data.data.take 30)⟩
                   ⟨pyStrip ((data.data.drop 31).take 36)⟩ n)
  else if kw = "COLGRP" then
    match split_length data.data [31, 31, 5, 2, 4] with
    | [g1, g2, g3, g4, g5] =>
      match pyIntHex g4 with
      | .error e => .error e
      | .ok h4 =>
        match pyInt g5 with
        | .error e => .error e
        | .ok i5 => .ok (.COLGRP g1 g2 g3 h4 i5)
    | _ => .error .assertionError
  else if kw = "END" then .ok .END
  else if kw = "MTZHIST" then
    match pyInt (pyStripStr data) with
    | .error e => .error e
    | .ok n => .ok (.MTZHIST n)
  else if kw = "MTZENDOFHEADERS" then .ok .MTZENDOFHEADERS
  else if kw = "MTZBATS" then .ok .MTZBATS
  else if kw = "BH" then
    match shlexSplit data with
    | .error e => .error e
    | .ok parts =>
      match parts with
      | [p1, p2, p3, p4] =>
        match mapPyInt [p1, p2, p3, p4] with
        | .error e => .error e
        | .ok [i1, i2, i3, i4] => .ok (.BH i1 i2 i3 i4)
        | .ok _ => .error .fuelExhausted
      | _ => .error .assertionError
  else if kw = "BHCH" then
    .ok (.BHCH ((split_length data.data [9, 9, 9]).filter (fun x => !(x = ""))))
  else .error (.ioError ("Unrecognised column type " ++ kw))

/-- `_parse_record` from the source: split off the keyword at the first
space and dispatch. -/
def parse_record (raw : String) : Except PyError HeaderRecord :=
  recordDispatch (splitKeyword raw).1 (splitKeyword raw).2

/-- Sign reinterpretation of a 32-bit word, as done by `struct.unpack` with
the signed format character used by `read_uint4` (despite its name the
source unpacks a signed int32). -/
def toSigned (w : Nat) : Int :=
  if w < 2147483648 then (w : Int) else (w : Int) - 4294967296

/-- Little-endian 4-byte encoding of a 32-bit word. -/
def le4 (w : Nat) : List Nat :=
  [w % 256, w / 256 % 256, w / 65536 % 256, w / 16777216 % 256]

/-- Little-endian 4-byte encoding of a Python int32 value (the source
always writes/reads int32s two's-complement). -/
def encInt32 (n : Int) : List Nat :=
  le4 (n % 4294967296).toNat

/-- `file_reader.read_uint4`: consume 4 bytes, little-endian, reinterpret
as a signed int32.  A short read raises `struct.error`. -/
def read_uint4 : List Nat → Except PyError (Int × List Nat)
  | b0 :: b1 :: b2 :: b3 :: rest =>
      .ok (toSigned (b0 + 256 * b1 + 65536 * b2 + 16777216 * b3), rest)
  | _ => .error .structError

/-- Modelled from the spec: `file_reader` in `src/mtz/io.py` does not
define the `read_float4` method that `_parse_batch` calls; the spec's
BinaryCursor collaborator exposes "little-endian fixed-width integer/float
reads".  The read is modelled as consuming 4 bytes and returning the
little-endian 32-bit pattern of the float32 value; float payloads are only
stored by the decoder, never computed with, so the bit pattern represents
the value faithfully. -/
def read_float4 : List Nat → Except PyError (Nat × List Nat)
  | b0 :: b1 :: b2 :: b3 :: rest =>
      .ok (b0 + 256 * b1 + 65536 * b2 + 16777216 * b3, rest)
  | _ => .error .structError

/-- Read `n` consecutive int32 values. -/
def readUint4s : Nat → List Nat → Except PyError (List Int × List Nat)
  | 0, s => .ok ([], s)
  | n + 1, s =>
    match read_uint4 s with
    | .error e => .error e
    | .ok (v, s') =>
      match readUint4s n s' with
      | .error e => .error e
      | .ok (vs, s'') => .ok (v :: vs, s'')

/-- Read `n` consecutive float32 values (as 32-bit patterns). -/
def readFloat4s : Nat → List Nat → Except PyError (List Nat × List Nat)
  | 0, s => .ok ([], s)
  | n + 1, s =>
    match read_float4 s with
    | .error e => .error e
    | .ok (v, s') =>
      match readFloat4s n s' with
      | .error e => .error e
      | .ok (vs, s'') => .ok (v :: vs, s'')

/-- `bytes.decode("ascii")`: every byte must be below 128
(`UnicodeDecodeError` is a `ValueError` subclass). -/
def decodeAscii (l : List Nat) : Except PyError String :=
  if l.all (· < 128) then .ok ⟨l.map Char.ofNat⟩
  else .error (.valueError "ascii codec cannot decode byte")

/-- The `Batch` entity from the source: serial number, title, the pair of
the integer payload array and the real payload array (float32 bit
patterns), and the per-axis name list from the `BHCH` record. -/
structure Batch where
  serial : Int
  title : String
  ints : List Int
  reals : List Nat
  bhch : List String
deriving DecidableEq, Repr

/-- The `(serial, nwords, nintegers, nreals)` payload of a `BH` record.
Only applied to `BH` records (guaranteed by the expected-keyword check). -/
def HeaderRecord.bhVals : HeaderRecord → Int × Int × Int × Int
  | .BH a b c d => (a, b, c, d)
  | _ => (0, 0, 0, 0)

/-- The string payload of a free-text record.  Only applied to records
whose payload is a single string. -/
def HeaderRecord.strData : HeaderRecord → String
  | .VERS s => s
  | .TITLE s => s
  | .SYMM s => s
  | .VALM s => s
  | _ => ""

/-- The name-list payload of a `BHCH` record. -/
def HeaderRecord.bhchVal : HeaderRecord → List String
  | .BHCH l => l
  | _ => []

/-- The `(ncols, nrefl, nbatch)` payload of an `NCOL` record.  Only
applied to `NCOL` records (guaranteed by the `get_only` over the
`NCOL`-filtered list). -/
def HeaderRecord.ncolVals : HeaderRecord → Int × Int × Int
  | .NCOL a b c => (a, b, c)
  | _ => (0, 0, 0)

/-- The integer-list payload of a `BATCH` record. -/
def HeaderRecord.batchVals : HeaderRecord → List Int
  | .BATCH l => l
  | _ => []

/-- `_read_record` from the source: consume 80 bytes, ASCII-decode, parse,
and optionally check the keyword against an expected one (mismatch raises
`MTZFileError`). -/
def read_record (s : List Nat) (expected : Option String) :
    Except PyError (HeaderRecord × List Nat) :=
  match decodeAscii (s.take 80) with
  | .error e => .error e
  | .ok str =>
    match parse_record str with
    | .error e => .error e
    | .ok r =>
      match expected with
      | none => .ok (r, s.drop 80)
      | some k =>
        if r.keyword = k then .ok (r, s.drop 80)
        else .error (.mtzFileError ("Unexpected result looking for " ++ k ++ " record"))

/-- `_parse_batch` from the source: a `BH` record, a `TITLE` record, three
raw int32 confirmation values that must equal the declared nwords,
nintegers, nreals (with nreals+nintegers == nwords) — each checked by an
`assert` —, then `nintegers - 3` further int32 values, `nreals` float32
values, and a `BHCH` record. -/
def parse_batch (s : List Nat) : Except PyError (Batch × List Nat) :=
  match read_record s (some "BH") with
  | .error e => .error e
  | .ok (bh, s1) =>
    let (serial, nwords, nints, nreals) := bh.bhVals
    match read_record s1 (some "TITLE") with
    | .error e => .error e
    | .ok (t, s2) =>
      match read_uint4 s2 with
      | .error e => .error e
      | .ok (a, s3) =>
        if nwords = a then
          match read_uint4 s3 with
          | .error e => .error e
          | .ok (b, s4) =>
            if nints = b then
              match read_uint4 s4 with
              | .error e => .error e
              | .ok (c, s5) =>
                if nreals = c then
                  if nreals + nints = nwords then
                    match readUint4s (nints - 3).toNat s5 with
                    | .error e => .error e
                    | .ok (ints, s6) =>
                      match readFloat4s nreals.toNat s6 with
                      | .error e => .error e
                      | .ok (reals, s7) =>
                        match read_record s7 (some "BHCH") with
                        | .error e => .error e
                        | .ok (bhch, s8) =>
                          .ok (⟨serial, t.strData, ints, reals, bhch.bhchVal⟩, s8)
                  else .error .assertionError
                else .error .assertionError
            else .error .assertionError
        else .error .assertionError

/-- Decode exactly `n` batches in sequence (the source iterates
`range(nbatch)`; the batch block is not self-terminating). -/
def parseBatches : Nat → List Nat → Except PyError (List Batch × List Nat)
  | 0, s => .ok ([], s)
  | n + 1, s =>
    match parse_batch s with
    | .error e => .error e
    | .ok (b, s') =>
      match parseBatches n s' with
      | .error e => .error e
      | .ok (bs, s'') => .ok (b :: bs, s'')

/-- Read `n` raw 80-byte history lines, ASCII-decoded and trimmed. -/
def readHistory : Nat → List Nat → Except PyError (List String × List Nat)
  | 0, s => .ok ([], s)
  | n + 1, s =>
    match decodeAscii (s.take 80) with
    | .error e => .error e
    | .ok str =>
      match readHistory n (s.drop 80) with
      | .error e => .error e
      | .ok (rest, s') => .ok (pyStripStr str :: rest, s')

/-- Fuel-bounded loop body for phase 1 of `_parse_header`: read 80-byte
records until an `END` record, collecting them in order (`END` itself is
discarded).  Each iteration consumes 80 bytes of a nonempty stream, and on
an empty stream the 80-byte read produces an empty record whose blank
keyword is unrecognised (an `IOError`), so with fuel exceeding the stream
length the `fuelExhausted` arm is unreachable. -/
def parseHeaderRecordsFuel : Nat → List Nat →
    Except PyError (List HeaderRecord × List Nat)
  | 0, _ => .error .fuelExhausted
  | fuel + 1, s =>
    match read_record s none with
    | .error e => .error e
    | .ok (r, s') =>
      if r.keyword = "END" then .ok ([], s')
      else
        match parseHeaderRecordsFuel fuel (s.drop 80) with
        | .error e => .error e
        | .ok (rs, s'') => .ok (r :: rs, s'')

/-- Phase 1 of `_parse_header` (the `while True:` record loop), with the
fuel instantiated so that it can never be exhausted. -/
def parseHeaderRecords (s : List Nat) :
    Except PyError (List HeaderRecord × List Nat) :=
  parseHeaderRecordsFuel (s.length + 1) s

/-- Phase 2 of `_parse_header`: read post-header records until
`MTZENDOFHEADERS`; an `MTZHIST n` record replaces the history with the next
`n` raw lines, an `MTZBATS` record replaces the batch list with `nbatch`
decoded batches, and any other record is read and dropped.  `fuel` bounds
the iteration count; callers pass one more than the stream length, and each
iteration either consumes at least one byte or fails, so the bound is never
reached. -/
def postHeader : Nat → List Nat → Int → List String → List Batch →
    Except PyError (List String × List Batch × List Nat)
  | 0, _, _, _, _ => .error .fuelExhausted
  | fuel + 1, s, nbatch, hist, batches =>
    match read_record s none with
    | .error e => .error e
    | .ok (r, s') =>
      match r with
      | .MTZHIST n =>
        match readHistory n.toNat s' with
        | .error e => .error e
        | .ok (h2, s2) => postHeader fuel s2 nbatch h2 batches
      | .MTZBATS =>
        match parseBatches nbatch.toNat s' with
        | .error e => .error e
        | .ok (bs, s2) => postHeader fuel s2 nbatch hist bs
      | .MTZENDOFHEADERS => .ok (hist, batches, s')
      | _ => postHeader fuel s' nbatch hist batches

/-- The `Dataset` entity from the source: id plus the five optional
per-dataset attributes. -/
structure Dataset where
  id : Int
  name : Option String
  project : Option String
  crystal : Option String
  cell : Option (List PyFloat)
  wavelength : Option PyFloat
deriving DecidableEq, Repr

/-- The `Column` entity from the source. -/
structure Column where
  name : String
  type : DataType
  range : PyFloat × PyFloat
  source : Option String
  dataset : Dataset
deriving DecidableEq, Repr

/-- The dataset id declared by a `COL`/`COLUMN` record (`data[4]`). -/
def HeaderRecord.colDatasetId : HeaderRecord → Int
  | .COL _ _ _ _ _ d => d
  | _ => 0

/-- The `(name, type, min, max, dataset id)` payload of a `COL`/`COLUMN`
record. -/
def HeaderRecord.colPayload : HeaderRecord → String × String × PyFloat × PyFloat × Int
  | .COL _ n t mn mx d => (n, t, mn, mx, d)
  | _ => ("", "", ⟨0, 0⟩, ⟨0, 0⟩, 0)

/-- The leading dataset id (`data[0]`) of a dataset-defining record. -/
def HeaderRecord.fstId : HeaderRecord → Int
  | .PROJECT i _ => i
  | .CRYSTAL i _ => i
  | .DATASET i _ => i
  | .DCELL i _ => i
  | .DWAVEL i _ => i
  | _ => 0

/-- The second field (`data[1]`) of a `PROJECT`/`CRYSTAL`/`DATASET`
record. -/
def HeaderRecord.sndStr : HeaderRecord → String
  | .PROJECT _ s => s
  | .CRYSTAL _ s => s
  | .DATASET _ s => s
  | _ => ""

/-- The cell parameters (`data[1:]`) of a `DCELL` record. -/
def HeaderRecord.dcellTail : HeaderRecord → List PyFloat
  | .DCELL _ l => l
  | _ => []

/-- The wavelength (`data[1]`) of a `DWAVEL` record. -/
def HeaderRecord.dwavelVal : HeaderRecord → PyFloat
  | .DWAVEL _ w => w
  | _ => ⟨0, 0⟩

/-- The count payload of an `NDIF` record. -/
def HeaderRecord.ndifVal : HeaderRecord → Int
  | .NDIF n => n
  | _ => 0

/-- The column-name field (`data[0]`) of a `COLSRC` record. -/
def HeaderRecord.colsrcFst : HeaderRecord → String
  | .COLSRC a _ _ => a
  | _ => ""

/-- The source field (`data[1]`) of a `COLSRC` record. -/
def HeaderRecord.colsrcSnd : HeaderRecord → String
  | .COLSRC _ b _ => b
  | _ => ""

/-- Is this record a `COL`/`COLUMN` record? -/
def isColRec (r : HeaderRecord) : Bool :=
  r.keyword = "COL" || r.keyword = "COLUMN"

/-- Is this record one of the five dataset-defining kinds? -/
def isDsDefRec (r : HeaderRecord) : Bool :=
  r.keyword = "PROJECT" || r.keyword = "CRYSTAL" || r.keyword = "DATASET" ||
  r.keyword = "DCELL" || r.keyword = "DWAVEL"

/-- The distinct elements of a list, modelling the Python `set` built in
`_extract_datasets`.  Python set iteration order is unspecified; the
decoder's observable behaviour relies only on the cardinality and
membership of this set, which `List.dedup` models faithfully. -/
def pySet (l : List Int) : List Int := l.dedup

/-- The dataset-id set of `_extract_datasets`: ids mentioned by
`COL`/`COLUMN` records (field 5) together with ids mentioned by
dataset-defining records (field 1). -/
def datasetIds (recs : List HeaderRecord) : List Int :=
  pySet (((recs.filter isColRec).map HeaderRecord.colDatasetId) ++
         ((recs.filter isDsDefRec).map HeaderRecord.fstId))

/-- Build one `Dataset` for a given id: look up at most one record of each
of the five defining kinds (`get_only_or`; more than one is a
`ValueError`). -/
def buildDataset (recs : List HeaderRecord) (i : Int) :
    Except PyError Dataset :=
  match get_only_or (recs.filter fun r => r.keyword = "DATASET" && r.fstId = i) with
  | .error e => .error e
  | .ok name =>
    match get_only_or (recs.filter fun r => r.keyword = "PROJECT" && r.fstId = i) with
    | .error e => .error e
    | .ok project =>
      match get_only_or (recs.filter fun r => r.keyword = "CRYSTAL" && r.fstId = i) with
      | .error e => .error e
      | .ok crystal =>
        match get_only_or (recs.filter fun r => r.keyword = "DCELL" && r.fstId = i) with
        | .error e => .error e
        | .ok cell =>
          match get_only_or (recs.filter fun r => r.keyword = "DWAVEL" && r.fstId = i) with
          | .error e => .error e
          | .ok wavelength =>
            .ok ⟨i, name.map HeaderRecord.sndStr, project.map HeaderRecord.sndStr,
                 crystal.map HeaderRecord.sndStr, cell.map HeaderRecord.dcellTail,
                 wavelength.map HeaderRecord.dwavelVal⟩

/-- Build the datasets for a list of ids, in order. -/
def buildDatasets (recs : List HeaderRecord) : List Int → Except PyError (List Dataset)
  | [] => .ok []
  | i :: is =>
    match buildDataset recs i with
    | .error e => .error e
    | .ok d =>
      match buildDatasets recs is with
      | .error e => .error e
      | .ok ds => .ok (d :: ds)

/-- `_extract_datasets` from the source: compute the dataset-id set, read
the declared count from the single `NDIF` record (`get_only`), fail with
`InconsistentHeaderError` when the two disagree, and otherwise assemble one
`Dataset` per id. -/
def extract_datasets (recs : List HeaderRecord) : Except PyError (List Dataset) :=
  match get_only (recs.filter fun r => r.keyword = "NDIF") with
  | .error e => .error e
  | .ok nd =>
    if ((datasetIds recs).length : Int) = nd.ndifVal then
      buildDatasets recs (datasetIds recs)
    else .error (.inconsistentHeaderError "Cannot find all defined dataset IDs")

/-- Build the columns from the `COL`/`COLUMN` payloads, in header order:
for each column, look up exactly one `COLSRC` record by column name and
exactly one `Dataset` by dataset id (both via `get_only`, as the source
does), then convert the type code. -/
def buildColumns (recs : List HeaderRecord) (datasets : List Dataset) :
    List (String × String × PyFloat × PyFloat × Int) → Except PyError (List Column)
  | [] => .ok []
  | (name, ty, mn, mx, did) :: rest =>
    match get_only (recs.filter fun r => r.keyword = "COLSRC" && r.colsrcFst = name) with
    | .error e => .error e
    | .ok src =>
      match get_only (datasets.filter fun d => d.id = did) with
      | .error e => .error e
      | .ok ds =>
        match DataType.ofString ty with
        | .error e => .error e
        | .ok dt =>
          match buildColumns recs datasets rest with
          | .error e => .error e
          | .ok cols => .ok (⟨name, dt, (mn, mx), some src.colsrcSnd, ds⟩ :: cols)

/-- `_extract_columns` from the source.  The `get_only` over the
`NCOL`-filtered records reproduces the source's (unused) `ncolumns`
lookup, including its failure modes. -/
def extract_columns (recs : List HeaderRecord) (datasets : List Dataset) :
    Except PyError (List Column) :=
  match get_only (recs.filter fun r => r.keyword = "NCOL") with
  | .error e => .error e
  | .ok _ =>
    buildColumns recs datasets ((recs.filter isColRec).map HeaderRecord.colPayload)

/-- The `Header` aggregate from the source. -/
structure Header where
  history : List String
  batches : List Batch
  datasets : List Dataset
  columns : List Column
  version : String
  title : String
  raw_records : List HeaderRecord
deriving DecidableEq, Repr

/-- Keywords removed from the retained raw-record list by
`Header.__init__` (they are represented structurally after extraction). -/
def retainedRecord (r : HeaderRecord) : Bool :=
  !(r.keyword = "NDIF" || r.keyword = "PROJECT" || r.keyword = "DCELL" ||
    r.keyword = "DATASET" || r.keyword = "CRYSTAL" || r.keyword = "DWAVEL" ||
    r.keyword = "COL" || r.keyword = "COLUMN" || r.keyword = "COLSRC" ||
    r.keyword = "VERS" || r.keyword = "TITLE")

/-- `Header.__init__` from the source: extract datasets, then columns,
then the single `VERS` and `TITLE` records, and filter the retained
raw-record list. -/
def headerInit (recs : List HeaderRecord) (history : List String)
    (batches : List Batch) : Except PyError Header :=
  match extract_datasets recs with
  | .error e => .error e
  | .ok datasets =>
    match extract_columns recs datasets with
    | .error e => .error e
    | .ok columns =>
      match get_only (recs.filter fun r => r.keyword = "VERS") with
      | .error e => .error e
      | .ok v =>
        match get_only (recs.filter fun r => r.keyword = "TITLE") with
        | .error e => .error e
        | .ok t =>
          .ok ⟨history, batches, datasets, columns, v.strData, t.strData,
               recs.filter retainedRecord⟩

/-- The concatenation, in header order, of the integer payloads of all
`BATCH` records (`itertools.chain` in the source). -/
def headerBatchEntries (recs : List HeaderRecord) : List Int :=
  ((recs.filter fun r => r.keyword = "BATCH").map HeaderRecord.batchVals).flatten

/-- Element-wise comparison of the header `BATCH` entries against the
decoded batch serials, raising `InconsistentHeaderError` at the first
mismatch (the source's zip loop). -/
def checkSerials : List Int → List Batch → Except PyError Unit
  | [], _ => .ok ()
  | _, [] => .ok ()
  | e :: es, b :: bs =>
    if e = b.serial then checkSerials es bs
    else .error (.inconsistentHeaderError
      "Batch serial order does not match header batch serial order")

/-- The batch cross-checks of `_parse_header`: the entry count must equal
the decoded batch count, and the serials must match element-wise. -/
def batchChecks (entries : List Int) (batches : List Batch) :
    Except PyError Unit :=
  if entries.length = batches.length then checkSerials entries batches
  else .error (.inconsistentHeaderError
    "Number of batches does not match declared header batch index count")

/-- The number of `COL`/`COLUMN` records in a record list. -/
def countCols (recs : List HeaderRecord) : Nat :=
  (recs.filter isColRec).length

/-- `_parse_header` from the source: phase 1 collects the primary records,
the single `NCOL` record is read (`get_only`), phase 2 collects history
and batches, the `BATCH` entries are cross-checked against the decoded
batches, `BATCH` records are dropped, the declared column count is checked
against the `COL`/`COLUMN` records, and the `Header` is assembled. -/
def parse_header (s : List Nat) : Except PyError Header :=
  match parseHeaderRecords s with
  | .error e => .error e
  | .ok (recs, s1) =>
    match get_only (recs.filter fun r => r.keyword = "NCOL") with
    | .error e => .error e
    | .ok ncolRec =>
      let (ncols, _nrefl, nbatch) := ncolRec.ncolVals
      match postHeader (s1.length + 1) s1 nbatch [] [] with
      | .error e => .error e
      | .ok (hist, batches, _s2) =>
        match batchChecks (headerBatchEntries recs) batches with
        | .error e => .error e
        | .ok _ =>
          let recs2 := recs.filter fun r => !(r.keyword = "BATCH")
          if ncols = (countCols recs2 : Int) then headerInit recs2 hist batches
          else .error (.inconsistentHeaderError
            "Column entries in header do not match column count")

/-- The ASCII bytes of the magic constant `"MTZ "`. -/
def mtzMagic : List Nat := [77, 84, 90, 32]

/-- The fixed number-format tag `44 41 00 00`. -/
def numberFormatTag : List Nat := [68, 65, 0, 0]

/-- `MTZFile.__init__` from the source, as a function of the file bytes:
check the magic (plain `IOError` on mismatch), read the 1-based header
word offset as an int32, check the number-format tag (an `assert`), seek
to byte `(offset-1)*4` (a negative seek raises `IOError`), and parse the
header from there. -/
def mtzFile (file : List Nat) : Except PyError Header :=
  if file.take 4 = mtzMagic then
    match read_uint4 (file.drop 4) with
    | .error e => .error e
    | .ok (hp, _) =>
      if (file.drop 8).take 4 = numberFormatTag then
        if 1 ≤ hp then parse_header (file.drop ((hp - 1) * 4).toNat)
        else .error (.ioError "negative seek value")
      else .error .assertionError
  else .error (.ioError "Expected constant not encountered")

/-- Pad a record string with spaces to the fixed 80-byte record width, as
ASCII bytes. -/
def rec80 (s : String) : List Nat :=
  s.data.map Char.toNat ++ List.replicate (80 - s.data.length) 32

/-- Concatenated little-endian encoding of a list of int32 values, for
describing batch integer payloads on the wire. -/
def encInts : List Int → List Nat
  | [] => []
  | n :: ns => encInt32 n ++ encInts ns

/-- Concatenated little-endian encoding of a list of 32-bit words, for
describing batch float32 payloads on the wire. -/
def encWords : List Nat → List Nat
  | [] => []
  | w :: ws => le4 w ++ encWords ws

theorem le4_append_uint4 (w : Nat) (r : List Nat) (hw : w < 4294967296) :
    read_uint4 (le4 w ++ r) = .ok (toSigned w, r) := by
  have h : w % 256 + 256 * (w / 256 % 256) + 65536 * (w / 65536 % 256)
      + 16777216 * (w / 16777216 % 256) = w := by omega
  simp only [le4, List.cons_append, List.nil_append, read_uint4, h]

theorem toSigned_mod (n : Int) (h1 : -2147483648 ≤ n) (h2 : n < 2147483648) :
    toSigned (n % 4294967296).toNat = n := by
  unfold toSigned
  split <;> omega

theorem read_uint4_encInt32 (n : Int) (r : List Nat)
    (h1 : -2147483648 ≤ n) (h2 : n < 2147483648) :
    read_uint4 (encInt32 n ++ r) = .ok (n, r) := by
  unfold encInt32
  rw [le4_append_uint4 _ _ (by omega), toSigned_mod n h1 h2]

theorem read_float4_le4 (w : Nat) (r : List Nat) (hw : w < 4294967296) :
    read_float4 (le4 w ++ r) = .ok (w, r) := by
  have h : w % 256 + 256 * (w / 256 % 256) + 65536 * (w / 65536 % 256)
      + 16777216 * (w / 16777216 % 256) = w := by omega
  simp only [le4, List.cons_append, List.nil_append, read_float4, h]

theorem readUint4s_encInts (l : List Int) (r : List Nat)
    (h : ∀ x ∈ l, -2147483648 ≤ x ∧ x < 2147483648) :
    readUint4s l.length (encInts l ++ r) = .ok (l, r) := by
  induction l with
  | nil => simp [encInts, readUint4s]
  | cons x xs ih =>
    have hx := h x (by simp)
    rw [List.length_cons]
    simp only [encInts, List.append_assoc, readUint4s,
      read_uint4_encInt32 x _ hx.1 hx.2]
    rw [ih (fun y hy => h y (by simp [hy]))]

theorem readFloat4s_encWords (l : List Nat) (r : List Nat)
    (h : ∀ x ∈ l, x < 4294967296) :
    readFloat4s l.length (encWords l ++ r) = .ok (l, r) := by
  induction l with
  | nil => simp [encWords, readFloat4s]
  | cons x xs ih =>
    have hx := h x (by simp)
    rw [List.length_cons]
    simp only [encWords, List.append_assoc, readFloat4s, read_float4_le4 x _ hx]
    rw [ih (fun y hy => h y (by simp [hy]))]

theorem splitKeyword_colsrc (d : String) :
    splitKeyword ("COLSRC " ++ d) = ("COLSRC", d) := by
  obtain ⟨l⟩ := d
  unfold splitKeyword
  have h : (("COLSRC " ++ ⟨l⟩ : String)).data
      = 'C' :: 'O' :: 'L' :: 'S' :: 'R' :: 'C' :: ' ' :: l := rfl
  rw [h]
  simp [splitKeywordAux]

theorem splitKeyword_colgrp (d : String) :
    splitKeyword ("COLGRP " ++ d) = ("COLGRP", d) := by
  obtain ⟨l⟩ := d
  unfold splitKeyword
  have h : (("COLGRP " ++ ⟨l⟩ : String)).data
      = 'C' :: 'O' :: 'L' :: 'G' :: 'R' :: 'P' :: ' ' :: l := rfl
  rw [h]
  simp [splitKeywordAux]

theorem checkSerials_map (bs : List Batch) :
    checkSerials (bs.map Batch.serial) bs = .ok () := by
  induction bs with
  | nil => rfl
  | cons b bs ih => simp [checkSerials, ih]

theorem batchChecks_map (bs : List Batch) :
    batchChecks (bs.map Batch.serial) bs = .ok () := by
  simp [batchChecks, checkSerials_map]

theorem checkSerials_ne (es : List Int) (bs : List Batch)
    (hlen : es.length = bs.length) (hne : es ≠ bs.map Batch.serial) :
    checkSerials es bs = .error (.inconsistentHeaderError
      "Batch serial order does not match header batch serial order") := by
  induction es generalizing bs with
  | nil =>
    cases bs with
    | nil => simp at hne
    | cons b bs => simp at hlen
  | cons e es ih =>
    cases bs with
    | nil => simp at hlen
    | cons b bs =>
      by_cases he : e = b.serial
      · subst he
        simp only [checkSerials, if_pos rfl]
        refine ih bs (by simpa using hlen) ?_
        intro hcon
        exact hne (by simp [hcon])
      · simp [checkSerials, he]

theorem batchChecks_ne (es : List Int) (bs : List Batch)
    (hne : es ≠ bs.map Batch.serial) :
    ∃ m, batchChecks es bs = .error (.inconsistentHeaderError m) := by
  by_cases hlen : es.length = bs.length
  · exact ⟨"Batch serial order does not match header batch serial order",
      by simp [batchChecks, hlen, checkSerials_ne es bs hlen hne]⟩
  · exact ⟨"Number of batches does not match declared header batch index count",
      by simp [batchChecks, hlen]⟩

theorem headerInit_batches (recs : List HeaderRecord) (hist : List String)
    (bs : List Batch) (hd : Header) (h : headerInit recs hist bs = .ok hd) :
    hd.batches = bs := by
  unfold headerInit at h
  split at h
  · simp at h
  split at h
  · simp at h
  split at h
  · simp at h
  split at h
  · simp at h
  injection h with h2
  subst h2
  rfl

/-- The COLSRC decoding rule exactly as the claim states it: three
fixed-position slices of the payload at byte offsets 0–30 (trimmed), 31–67
(trimmed) and 67 to the end (converted to an integer). -/
def colsrcClaimed (data : String) : Except PyError HeaderRecord :=
  match pyInt ⟨data.data.drop 67⟩ with
  | .error e => .error e
  | .ok n =>
    .ok (.COLSRC ⟨pyStrip (data.data.take 30)⟩
                 ⟨pyStrip ((data.data.drop 31).take 36)⟩ n)

/-- The COLSRC decoding rule as amended: three fixed-position slices of
the payload at byte offsets 0–30 (trimmed), 31–67 (trimmed) and 66 to the
end (converted to an integer); the third slice starts one byte before the
end of the second, overlapping it. -/
def colsrcAmended (data : String) : Except PyError HeaderRecord :=
  match pyInt ⟨data.data.drop 66⟩ with
  | .error e => .error e
  | .ok n =>
    .ok (.COLSRC ⟨pyStrip (data.data.take 30)⟩
                 ⟨pyStrip ((data.data.drop 31).take 36)⟩ n)

/-- A COLSRC payload whose bytes at offsets 66 and 67 are the digits `1`
and `2`: the source's decoding (third slice from offset 66) yields 12,
while the claimed decoding (third slice from offset 67) yields 2. -/
def c8payload : String := ⟨List.replicate 66 ' ' ++ ['1', '2']⟩

/-- C8 counterexample: on `c8payload` the source's COLSRC decoding
disagrees with the claim's 67-based third slice — the code slices the
integer field from byte offset 66, not 67. -/
theorem c8_colsrc_counterexample :
    parse_record ("COLSRC " ++ c8payload) = .ok (.COLSRC "" "1" 12) ∧
    colsrcClaimed c8payload = .ok (.COLSRC "" "1" 2) ∧
    HeaderRecord.COLSRC "" "1" 12 ≠ HeaderRecord.COLSRC "" "1" 2 := by
  refine ⟨rfl, rfl, by decide⟩

/-- C8 (amended): for every COLSRC record the payload is produced by the
three fixed-position slices at byte offsets 0–30, 31–67 and 66 to the end
(first two trimmed, third converted to an integer), not by whitespace
tokenization. -/
theorem c8_colsrc_amended (d : String) :
    parse_record ("COLSRC " ++ d) = colsrcAmended d := by
  unfold parse_record
  rw [splitKeyword_colsrc]
  rfl

/-- The COLGRP decoding rule as the claim states it: consecutive
fixed-width fields of lengths 31, 31, 5, 2, 4 (each trimmed), the fourth
parsed as a hexadecimal integer and the fifth as a decimal integer. -/
def colgrpClaimed (data : String) : Except PyError HeaderRecord :=
  match split_length data.data [31, 31, 5, 2, 4] with
  | [g1, g2, g3, g4, g5] =>
    match pyIntHex g4 with
    | .error e => .error e
    | .ok h4 =>
      match pyInt g5 with
      | .error e => .error e
      | .ok i5 => .ok (.COLGRP g1 g2 g3 h4 i5)
  | _ => .error .assertionError

/-- A COLGRP payload whose fourth (hexadecimal) field is `1A`. -/
def c9payload : String :=
  "GRP" ++ ⟨List.replicate 28 ' '⟩ ++ "second" ++ ⟨List.replicate 25 ' '⟩ ++
  "g3   " ++ "1A" ++ "   7"

set_option maxHeartbeats 2000000 in
/-- C9: every COLGRP record is decoded by the claimed fixed-width
31/31/5/2/4 split with a hexadecimal fourth field and a decimal fifth
field; in particular the fourth field `1A` decodes to 26. -/
theorem c9_colgrp_fixed_width_hex :
    (∀ d : String, parse_record ("COLGRP " ++ d) = colgrpClaimed d) ∧
    parse_record ("COLGRP " ++ c9payload) = .ok (.COLGRP "GRP" "second" "g3" 26 7) := by
  constructor
  · intro d
    unfold parse_record
    rw [splitKeyword_colgrp]
    rfl
  · rfl

/-- A header record list containing a `COL` record named `X` and no
`COLSRC` record at all. -/
def c2recs : List HeaderRecord := [.NCOL 1 0 0, .COL false "X" "H" ⟨0, 0⟩ ⟨100, 0⟩ 1]

/-- A dataset list resolving the dataset id declared by the `COL` record
of `c2recs`. -/
def c2datasets : List Dataset := [⟨1, none, none, none, none, none⟩]

/-- C2 (code bug): on a header whose `COL` record has no matching `COLSRC`
record, column extraction fails with the generic exactly-one-lookup
`ValueError` instead of producing a `Column` with an empty source: the
source uses `get_only` for the `COLSRC` lookup where its own dead
`if source else None` guard (and `_extract_datasets`'s use of
`get_only_or` for the analogous optional lookups) show `get_only_or` was
intended. -/
theorem c2_missing_colsrc_fails :
    extract_columns c2recs c2datasets =
      .error (.valueError "No items in generator to extract") := rfl

/-- C6: when the single `NDIF` record's declared dataset count differs
from the number of distinct dataset ids discoverable from `COL`/`COLUMN`
and `PROJECT`/`CRYSTAL`/`DATASET`/`DCELL`/`DWAVEL` records, dataset
extraction fails with the distinguished `InconsistentHeaderError`. -/
theorem c6_ndif_mismatch_inconsistent (recs : List HeaderRecord) (n : Int)
    (hnd : recs.filter (fun r => r.keyword = "NDIF") = [.NDIF n])
    (hne : ((datasetIds recs).length : Int) ≠ n) :
    extract_datasets recs =
      .error (.inconsistentHeaderError "Cannot find all defined dataset IDs") := by
  unfold extract_datasets
  rw [hnd]
  simp [get_only, HeaderRecord.ndifVal, hne]

/-- A header record list declaring `NDIF 2` while only the dataset id 1 is
discoverable. -/
def c6recs : List HeaderRecord := [.COL false "X" "H" ⟨0, 0⟩ ⟨100, 0⟩ 1, .NDIF 2]

/-- Witness for C6 at a concrete header. -/
theorem c6_ndif_mismatch_inconsistent_witness :
    c6recs.filter (fun r => r.keyword = "NDIF") = [.NDIF 2] ∧
    ((datasetIds c6recs).length : Int) ≠ 2 ∧
    extract_datasets c6recs =
      .error (.inconsistentHeaderError "Cannot find all defined dataset IDs") :=
  ⟨rfl, by decide, c6_ndif_mismatch_inconsistent c6recs 2 rfl (by decide)⟩

/-- C10: when the primary header record list contains zero `NCOL` records,
or more than one, `_parse_header` fails with the generic exactly-one-lookup
`ValueError` from `get_only` — neither the `MTZFileError` format-error kind
nor the `InconsistentHeaderError` inconsistency kind. -/
theorem c10_ncol_cardinality_valueerror (s : List Nat)
    (recs : List HeaderRecord) (s1 : List Nat)
    (h1 : parseHeaderRecords s = .ok (recs, s1))
    (hcnt : (recs.filter fun r => r.keyword = "NCOL").length ≠ 1) :
    parse_header s = .error (.valueError
      (if (recs.filter fun r => r.keyword = "NCOL").length = 0
       then "No items in generator to extract"
       else "More than one item in generator")) := by
  have hg : get_only (recs.filter fun r => r.keyword = "NCOL") =
      .error (.valueError
        (if (recs.filter fun r => r.keyword = "NCOL").length = 0
         then "No items in generator to extract"
         else "More than one item in generator")) := by
    rcases hfl : recs.filter fun r => r.keyword = "NCOL" with _ | ⟨x, _ | ⟨y, zs⟩⟩
    · rw [hfl]
      simp [get_only]
    · exact absurd (by rw [hfl]; rfl) hcnt
    · rw [hfl]
      simp [get_only]
  simp only [parse_header, h1, hg]

/-- A stream whose primary header has no `NCOL` record at all. -/
def c10stream : List Nat :=
  rec80 "VERS x" ++ (rec80 "END" ++ rec80 "MTZENDOFHEADERS")

set_option maxRecDepth 10000 in
/-- Witness for C10 at a concrete stream with zero `NCOL` records. -/
theorem c10_ncol_cardinality_valueerror_witness :
    parseHeaderRecords c10stream = .ok ([.VERS "x"], rec80 "MTZENDOFHEADERS") ∧
    ([HeaderRecord.VERS "x"].filter fun r => r.keyword = "NCOL").length ≠ 1 ∧
    parse_header c10stream = .error (.valueError "No items in generator to extract") := by
  refine ⟨rfl, by decide, ?_⟩
  have h := c10_ncol_cardinality_valueerror c10stream [.VERS "x"]
    (rec80 "MTZENDOFHEADERS") rfl (by decide)
  simpa using h

/-- Does a decode result carry the `MTZFileError` format-error class? -/
def resultIsMTZFileError {α : Type} : Except PyError α → Bool
  | .error (.mtzFileError _) => true
  | _ => false

/-- A batch block whose `BH` record declares `(serial, nwords, nintegers,
nreals) = (1, 6, 4, 2)` but whose three in-stream confirmation integers
are `(6, 4, 3)` — the third disagrees with the declared `nreals`. -/
def c5stream : List Nat :=
  rec80 "BH 1 6 4 2" ++
    (rec80 "TITLE x" ++ (encInt32 6 ++ (encInt32 4 ++ (encInt32 3 ++ []))))

set_option maxRecDepth 10000 in
/-- C5 counterexample: at the concrete mismatching batch block the decoder
fails with an `assert` failure (Python `AssertionError`), which is not the
`MTZFileError` format-error class the claim names. -/
theorem c5_confirmation_mismatch_counterexample :
    parse_batch c5stream = .error .assertionError ∧
    resultIsMTZFileError (parse_batch c5stream) = false := ⟨rfl, rfl⟩

/-- C5 (amended): whenever any of the three in-stream confirmation int32
values disagrees with the `BH` record's declared nwords/nintegers/nreals
(or nreals + nintegers differs from nwords), batch decoding fails at that
batch with an assertion failure. -/
theorem c5_confirmation_mismatch_assertion (s sA sB rest : List Nat)
    (tr : HeaderRecord) (serial nw ni nr a b c : Int)
    (h1 : read_record s (some "BH") = .ok (.BH serial nw ni nr, sA))
    (h2 : read_record sA (some "TITLE") = .ok (tr, sB))
    (h3 : sB = encInt32 a ++ (encInt32 b ++ (encInt32 c ++ rest)))
    (ha : -2147483648 ≤ a ∧ a < 2147483648)
    (hb : -2147483648 ≤ b ∧ b < 2147483648)
    (hc : -2147483648 ≤ c ∧ c < 2147483648)
    (hmis : ¬(nw = a ∧ ni = b ∧ nr = c ∧ nr + ni = nw)) :
    parse_batch s = .error .assertionError := by
  subst h3
  simp only [parse_batch, h1, HeaderRecord.bhVals, h2,
    read_uint4_encInt32 a _ ha.1 ha.2]
  by_cases h4 : nw = a
  · simp only [if_pos h4, read_uint4_encInt32 b _ hb.1 hb.2]
    by_cases h5 : ni = b
    · simp only [if_pos h5, read_uint4_encInt32 c _ hc.1 hc.2]
      by_cases h6 : nr = c
      · have h7 : ¬(nr + ni = nw) := fun hcon => hmis ⟨h4, h5, h6, hcon⟩
        simp [if_pos h6, h7]
      · simp [h6]
    · simp [h5]
  · simp [h4]

set_option maxRecDepth 10000 in
/-- Witness for the amended C5 at the concrete mismatching batch block. -/
theorem c5_confirmation_mismatch_assertion_witness :
    read_record c5stream (some "BH") =
      .ok (.BH 1 6 4 2, rec80 "TITLE x" ++ (encInt32 6 ++ (encInt32 4 ++ (encInt32 3 ++ [])))) ∧
    ¬((6 : Int) = 6 ∧ (4 : Int) = 4 ∧ (2 : Int) = 3 ∧ (2 : Int) + 4 = 6) ∧
    parse_batch c5stream = .error .assertionError := by
  refine ⟨rfl, by decide, ?_⟩
  exact c5_confirmation_mismatch_assertion c5stream
    (rec80 "TITLE x" ++ (encInt32 6 ++ (encInt32 4 ++ (encInt32 3 ++ []))))
    (encInt32 6 ++ (encInt32 4 ++ (encInt32 3 ++ []))) [] (.TITLE "x")
    1 6 4 2 6 4 3 rfl rfl rfl (by decide) (by decide) (by decide) (by decide)

/-- C3: for a batch whose `BH` record declares counts that the in-stream
confirmation integers match, the decoder reads exactly `nintegers - 3`
further int32 values as the integer payload and exactly `nreals` float32
values as the real payload, and the produced `Batch` carries the two
arrays in stream order (the stream is left exactly past them and the
closing `BHCH` record). -/
theorem c3_batch_payload_arrays (s sA sB sC sD : List Nat)
    (serial nw ni nr : Int) (t : String) (ch : List String)
    (ints : List Int) (reals : List Nat)
    (h1 : read_record s (some "BH") = .ok (.BH serial nw ni nr, sA))
    (h2 : read_record sA (some "TITLE") = .ok (.TITLE t, sB))
    (h3 : sB = encInt32 nw ++ (encInt32 ni ++ (encInt32 nr ++
            (encInts ints ++ (encWords reals ++ sC)))))
    (h4 : read_record sC (some "BHCH") = .ok (.BHCH ch, sD))
    (hwb : 0 ≤ nw ∧ nw < 2147483648)
    (hib : 0 ≤ ni ∧ ni < 2147483648)
    (hrb : 0 ≤ nr ∧ nr < 2147483648)
    (hsum : nr + ni = nw)
    (hlen1 : ints.length = (ni - 3).toNat)
    (hlen2 : reals.length = nr.toNat)
    (hintsB : ∀ x ∈ ints, -2147483648 ≤ x ∧ x < 2147483648)
    (hrealsB : ∀ x ∈ reals, x < 4294967296) :
    parse_batch s = .ok (⟨serial, t, ints, reals, ch⟩, sD) := by
  subst h3
  simp only [parse_batch, h1, HeaderRecord.bhVals, h2,
    read_uint4_encInt32 nw _ (by omega) hwb.2,
    read_uint4_encInt32 ni _ (by omega) hib.2,
    read_uint4_encInt32 nr _ (by omega) hrb.2,
    if_pos rfl, if_pos hsum]
  rw [← hlen1, readUint4s_encInts ints _ hintsB, ← hlen2]
  simp [readFloat4s_encWords reals _ hrealsB, h4, HeaderRecord.strData,
    HeaderRecord.bhchVal]

/-- The binary tail of a concrete well-formed batch block: confirmation
integers `(6, 4, 2)`, one integer payload value `-2`, two float payload
words, then the `BHCH` record bytes and two trailing bytes. -/
def c3sB : List Nat :=
  encInt32 6 ++ (encInt32 4 ++ (encInt32 2 ++
    (encInts [-2] ++ (encWords [1065353216, 0] ++ (rec80 "BHCH axis1" ++ [9, 9])))))

/-- A concrete well-formed batch block: `BH 5 6 4 2`, a title, matching
confirmation integers, payload arrays, and a `BHCH` record. -/
def c3stream : List Nat :=
  rec80 "BH 5 6 4 2" ++ (rec80 "TITLE tb" ++ c3sB)

set_option maxRecDepth 10000 in
/-- Witness for C3 at the concrete batch block. -/
theorem c3_batch_payload_arrays_witness :
    read_record c3stream (some "BH") = .ok (.BH 5 6 4 2, rec80 "TITLE tb" ++ c3sB) ∧
    ([(-2 : Int)].length = ((4 : Int) - 3).toNat ∧
      [(1065353216 : Nat), 0].length = (2 : Int).toNat) ∧
    parse_batch c3stream =
      .ok (⟨5, "tb", [-2], [1065353216, 0], ["axis1"]⟩, [9, 9]) := by
  refine ⟨rfl, ⟨rfl, rfl⟩, ?_⟩
  exact c3_batch_payload_arrays c3stream (rec80 "TITLE tb" ++ c3sB) c3sB
    (rec80 "BHCH axis1" ++ [9, 9]) [9, 9] 5 6 4 2 "tb" ["axis1"]
    [-2] [1065353216, 0] rfl rfl rfl rfl (by decide) (by decide) (by decide)
    (by decide) rfl rfl (by decide) (by decide)

/-- C4: when the single `NCOL` record's first field differs from the
number of `COL`/`COLUMN` records in the primary header (all records
individually well-formed, batch cross-checks passing), decoding fails
with the distinguished `InconsistentHeaderError`, not the `MTZFileError`
format-error kind. -/
theorem c4_ncol_mismatch_inconsistent (s : List Nat)
    (recs : List HeaderRecord) (s1 : List Nat) (nc nref nb : Int)
    (hist : List String) (batches : List Batch) (s2 : List Nat)
    (h1 : parseHeaderRecords s = .ok (recs, s1))
    (hn : recs.filter (fun r => r.keyword = "NCOL") = [.NCOL nc nref nb])
    (h2 : postHeader (s1.length + 1) s1 nb [] [] = .ok (hist, batches, s2))
    (hb : headerBatchEntries recs = batches.map Batch.serial)
    (hc : nc ≠ (countCols (recs.filter fun r => !(r.keyword = "BATCH")) : Int)) :
    parse_header s = .error (.inconsistentHeaderError
      "Column entries in header do not match column count") := by
  simp only [parse_header, h1, hn, get_only, HeaderRecord.ncolVals, h2, hb,
    batchChecks_map, if_neg hc]

/-- C7: given the phases of `_parse_header` (primary records, the single
`NCOL` record, post-header history and batches), a successfully decoded
`Header` has the concatenated `BATCH`-record entries equal, element-wise
and in header order, to the decoded batch serials; and whenever the two
lists differ (in length or in any element) decoding fails with the
distinguished `InconsistentHeaderError`. -/
theorem c7_batch_serials_cross_check (s : List Nat)
    (recs : List HeaderRecord) (s1 : List Nat) (nc nref nb : Int)
    (hist : List String) (batches : List Batch) (s2 : List Nat)
    (h1 : parseHeaderRecords s = .ok (recs, s1))
    (hn : recs.filter (fun r => r.keyword = "NCOL") = [.NCOL nc nref nb])
    (h2 : postHeader (s1.length + 1) s1 nb [] [] = .ok (hist, batches, s2)) :
    (∀ hd : Header, parse_header s = .ok hd →
      headerBatchEntries recs = hd.batches.map Batch.serial) ∧
    (headerBatchEntries recs ≠ batches.map Batch.serial →
      ∃ m, parse_header s = .error (.inconsistentHeaderError m)) := by
  have hred : parse_header s =
      match batchChecks (headerBatchEntries recs) batches with
      | .error e => .error e
      | .ok _ =>
        if nc = (countCols (recs.filter fun r => !(r.keyword = "BATCH")) : Int)
        then headerInit (recs.filter fun r => !(r.keyword = "BATCH")) hist batches
        else .error (.inconsistentHeaderError
          "Column entries in header do not match column count") := by
    simp only [parse_header, h1, hn, get_only, HeaderRecord.ncolVals, h2]
  constructor
  · intro hd hok
    have heq : headerBatchEntries recs = batches.map Batch.serial := by
      by_contra hne
      obtain ⟨m, hm⟩ := batchChecks_ne _ _ hne
      rw [hred, hm] at hok
      simp at hok
    rw [hred, heq, batchChecks_map] at hok
    have hok2 : (if nc = (countCols (recs.filter fun r => !(r.keyword = "BATCH")) : Int)
        then headerInit (recs.filter fun r => !(r.keyword = "BATCH")) hist batches
        else .error (.inconsistentHeaderError
          "Column entries in header do not match column count")) = .ok hd := hok
    split at hok2
    · rw [heq, headerInit_batches _ _ _ _ hok2]
    · simp at hok2
  · intro hne
    obtain ⟨m, hm⟩ := batchChecks_ne _ _ hne
    exact ⟨m, by rw [hred, hm]⟩

/-- A primary header declaring `NCOL 3 0 0` while containing only two
`COL` records, followed by an empty post-header section. -/
def c4stream : List Nat :=
  rec80 "NCOL 3 0 0" ++ (rec80 "COL H H 0 100 1" ++ (rec80 "COL K H 0 100 1" ++
    (rec80 "END" ++ rec80 "MTZENDOFHEADERS")))

/-- The records of `c4stream`'s primary header. -/
def c4recs : List HeaderRecord :=
  [.NCOL 3 0 0, .COL false "H" "H" ⟨0, 0⟩ ⟨100, 0⟩ 1, .COL false "K" "H" ⟨0, 0⟩ ⟨100, 0⟩ 1]

set_option maxRecDepth 10000 in
/-- Witness for C4 at the concrete mismatching file. -/
theorem c4_ncol_mismatch_inconsistent_witness :
    parseHeaderRecords c4stream = .ok (c4recs, rec80 "MTZENDOFHEADERS") ∧
    c4recs.filter (fun r => r.keyword = "NCOL") = [.NCOL 3 0 0] ∧
    postHeader ((rec80 "MTZENDOFHEADERS").length + 1) (rec80 "MTZENDOFHEADERS")
      0 [] [] = .ok ([], [], []) ∧
    (3 : Int) ≠ (countCols (c4recs.filter fun r => !(r.keyword = "BATCH")) : Int) ∧
    parse_header c4stream = .error (.inconsistentHeaderError
      "Column entries in header do not match column count") := by
  refine ⟨rfl, rfl, rfl, by decide, ?_⟩
  exact c4_ncol_mismatch_inconsistent c4stream c4recs (rec80 "MTZENDOFHEADERS")
    3 0 0 [] [] [] rfl rfl rfl rfl (by decide)

/-- The binary bytes of the single batch of `c7stream`. -/
def c7batchBytes : List Nat :=
  rec80 "BH 7 3 3 0" ++ (rec80 "TITLE b" ++
    (encInt32 3 ++ (encInt32 3 ++ (encInt32 0 ++ rec80 "BHCH a"))))

/-- The post-header section of `c7stream`: an `MTZBATS` block with one
batch of serial 7, then the terminator. -/
def c7tail : List Nat :=
  rec80 "MTZBATS" ++ (c7batchBytes ++ rec80 "MTZENDOFHEADERS")

/-- A complete header stream whose `BATCH` record lists serial 7 and whose
batch block decodes one batch with serial 7. -/
def c7stream : List Nat :=
  rec80 "VERS v" ++ (rec80 "TITLE t" ++ (rec80 "NCOL 0 0 1" ++
    (rec80 "NDIF 0" ++ (rec80 "BATCH 7" ++ (rec80 "END" ++ c7tail)))))

/-- The records of `c7stream`'s primary header. -/
def c7recs : List HeaderRecord :=
  [.VERS "v", .TITLE "t", .NCOL 0 0 1, .NDIF 0, .BATCH [7]]

/-- The decoded batches of `c7stream`. -/
def c7batches : List Batch := [⟨7, "b", [], [], ["a"]⟩]

set_option maxRecDepth 10000 in
/-- Witness for C7 at a concrete one-batch file. -/
theorem c7_batch_serials_cross_check_witness :
    parseHeaderRecords c7stream = .ok (c7recs, c7tail) ∧
    c7recs.filter (fun r => r.keyword = "NCOL") = [.NCOL 0 0 1] ∧
    postHeader (c7tail.length + 1) c7tail 1 [] [] = .ok ([], c7batches, []) ∧
    ((∀ hd : Header, parse_header c7stream = .ok hd →
        headerBatchEntries c7recs = hd.batches.map Batch.serial) ∧
     (headerBatchEntries c7recs ≠ c7batches.map Batch.serial →
        ∃ m, parse_header c7stream = .error (.inconsistentHeaderError m))) := by
  refine ⟨rfl, rfl, rfl, ?_⟩
  exact c7_batch_serials_cross_check c7stream c7recs c7tail 0 0 1 [] c7batches []
    rfl rfl rfl

/-- The header section of the claim's minimal file: exactly `VERS`,
`TITLE`, `NCOL 0 0 0`, `END`, then `MTZENDOFHEADERS`, with no `NDIF`
record. -/
def c1recordsNoNdif : List Nat :=
  rec80 "VERS MTZ:V1.1" ++ (rec80 "TITLE test" ++ (rec80 "NCOL 0 0 0" ++
    (rec80 "END" ++ rec80 "MTZENDOFHEADERS")))

/-- The claim's minimal file: magic, header word offset 4 (the header
starts right after the 12-byte preamble), the fixed number-format tag,
then `c1recordsNoNdif`. -/
def c1fileNoNdif : List Nat :=
  mtzMagic ++ (le4 4 ++ (numberFormatTag ++ c1recordsNoNdif))

set_option maxRecDepth 10000 in
/-- C1 counterexample: decoding the claim's minimal file does not succeed —
`_extract_datasets` demands exactly one `NDIF` record (`get_only`), so with
no dataset-defining records present the decode fails with the generic
exactly-one-lookup `ValueError`. -/
theorem c1_minimal_file_counterexample :
    mtzFile c1fileNoNdif =
      .error (.valueError "No items in generator to extract") := rfl

/-- The amended minimal header section: as the claim's, plus the `NDIF 0`
record that `_extract_datasets` requires. -/
def c1records : List Nat :=
  rec80 "VERS MTZ:V1.1" ++ (rec80 "TITLE test" ++ (rec80 "NCOL 0 0 0" ++
    (rec80 "NDIF 0" ++ (rec80 "END" ++ rec80 "MTZENDOFHEADERS"))))

set_option maxRecDepth 10000 in
/-- C1 (amended): for every file whose preamble has the magic and the
fixed number-format tag, whose header word offset points (past arbitrary
filler bytes) at a header section of exactly `VERS`, `TITLE`,
`NCOL (0,0,0)`, `NDIF 0`, `END`, `MTZENDOFHEADERS`, decoding succeeds and
yields a `Header` whose columns, batches and datasets are all empty. -/
theorem c1_minimal_file_decodes_empty (hp : Nat) (filler : List Nat)
    (h4 : 4 ≤ hp) (hlt : hp < 2147483648)
    (hfill : filler.length = (hp - 1) * 4 - 12) :
    (mtzFile (mtzMagic ++ (le4 hp ++ (numberFormatTag ++
        (filler ++ c1records))))).map
      (fun h => (h.columns, h.batches, h.datasets)) = .ok ([], [], []) := by
  have hd4 : (mtzMagic ++ (le4 hp ++ (numberFormatTag ++
      (filler ++ c1records)))).drop 4
      = le4 hp ++ (numberFormatTag ++ (filler ++ c1records)) :=
    List.drop_left' rfl
  have hd8 : (mtzMagic ++ (le4 hp ++ (numberFormatTag ++
      (filler ++ c1records)))).drop 8
      = numberFormatTag ++ (filler ++ c1records) := by
    have : (8 : Nat) = 4 + 4 := rfl
    rw [this, ← List.drop_drop, hd4]
    exact List.drop_left' rfl
  have hts : toSigned hp = (hp : Int) := by
    unfold toSigned
    rw [if_pos hlt]
  have hread : read_uint4 ((mtzMagic ++ (le4 hp ++ (numberFormatTag ++
      (filler ++ c1records)))).drop 4)
      = .ok ((hp : Int), numberFormatTag ++ (filler ++ c1records)) := by
    rw [hd4, le4_append_uint4 _ _ (by omega), hts]
  have h1p : (1 : Int) ≤ (hp : Int) := by omega
  have harg : (((hp : Int) - 1) * 4).toNat = (hp - 1) * 4 := by omega
  have hassoc : mtzMagic ++ (le4 hp ++ (numberFormatTag ++
      (filler ++ c1records)))
      = (mtzMagic ++ le4 hp ++ numberFormatTag ++ filler) ++ c1records := by
    simp [List.append_assoc]
  have hdropAll : (mtzMagic ++ (le4 hp ++ (numberFormatTag ++
      (filler ++ c1records)))).drop ((hp - 1) * 4) = c1records := by
    rw [hassoc]
    apply List.drop_left'
    simp only [List.length_append, hfill]
    have : (mtzMagic.length : Nat) = 4 := rfl
    have : (le4 hp).length = 4 := rfl
    have : (numberFormatTag.length : Nat) = 4 := rfl
    simp [mtzMagic, le4, numberFormatTag]
    omega
  have ht4 : (mtzMagic ++ (le4 hp ++ (numberFormatTag ++
      (filler ++ c1records)))).take 4 = mtzMagic := List.take_left' rfl
  have htag : ((mtzMagic ++ (le4 hp ++ (numberFormatTag ++
      (filler ++ c1records)))).drop 8).take 4 = numberFormatTag := by
    rw [hd8]
    exact List.take_left' rfl
  have hm : mtzFile (mtzMagic ++ (le4 hp ++ (numberFormatTag ++
      (filler ++ c1records)))) = parse_header c1records := by
    unfold mtzFile
    simp only [ht4, hread, htag, harg, hdropAll]
    simp [h1p]
  rw [hm]
  rfl

set_option maxRecDepth 10000 in
/-- Witness for the amended C1 with offset 4 and no filler. -/
theorem c1_minimal_file_decodes_empty_witness :
    4 ≤ 4 ∧ ([] : List Nat).length = (4 - 1) * 4 - 12 ∧
    (mtzFile (mtzMagic ++ (le4 4 ++ (numberFormatTag ++
        ([] ++ c1records))))).map
      (fun h => (h.columns, h.batches, h.datasets)) = .ok ([], [], []) :=
  ⟨by decide, by decide,
    c1_minimal_file_decodes_empty 4 [] (by decide) (by decide) (by decide)⟩
